import Mathlib

/-
A shallow embedding of the documentation configuration module
`doc/conf.py` of the tntcxx repository.

The module is a straight-line Python program of twelve statements:
two imports, one call `sys.path.insert(0, os.path.abspath(''))`, and
nine assignments binding configuration options in the module namespace.
We embed Python values, a small expression and statement language
covering exactly the constructs the module uses, and an evaluator over
an interpreter state that carries `sys.path`, the current working
directory, and an opaque component standing for all other
interpreter-global state.
-/

namespace TntcxxConf

/-- A Python runtime value as it can occur in this module: strings,
booleans, integers, lists, imported module objects, and None.  The
module itself only produces strings, booleans, lists of strings and
module objects, but the type is kept wide enough that "scalar or list"
is a real restriction. -/
inductive Value where
  | str (s : String)
  | bool (b : Bool)
  | int (n : Int)
  | list (elems : List Value)
  | module (m : String)
  | pyNone

/-- Interpreter-global state: `sys.path`, the current working
directory (which `os.path.abspath` consults), and an opaque component
`other` standing for every other piece of interpreter-global state.
The evaluator can only thread `other` through unchanged, which is what
lets us state frame conditions. -/
structure PyState (A : Type) where
  sysPath : List String
  cwd : String
  other : A

/-- The module namespace: bindings in insertion order. -/
abbrev Env := List (String × Value)

/-- Name lookup in the module namespace. -/
def lookupEnv (env : Env) (x : String) : Option Value :=
  match env.find? (fun p => p.1 == x) with
  | some p => some p.2
  | none => none

/-- Assignment: overwrite an existing binding in place, otherwise
append, matching Python dict insertion-order semantics. -/
def envSet (env : Env) (x : String) (v : Value) : Env :=
  match env with
  | [] => [(x, v)]
  | (y, w) :: rest =>
      if y == x then (x, v) :: rest else (y, w) :: envSet rest x v

/-- Character-level string prefix test (avoids opaque byte-position
machinery so that proofs can evaluate it). -/
def strStartsWith (s pre : String) : Bool :=
  pre.data.isPrefixOf s.data

/-- `os.path.abspath` restricted to the cases that matter here:
`abspath('')` is the current working directory, an absolute path is
returned unchanged, and a relative path is joined to the cwd.  (Path
normalisation is omitted; the module only ever calls it on `''`.) -/
def os_path_abspath (cwd : String) (p : String) : String :=
  if p == "" then cwd
  else if strStartsWith p "/" then p
  else cwd ++ "/" ++ p

/-- Python `list.insert(idx, a)`: insert before position `idx`,
clamped to the list length (negative indices never occur here). -/
def pyListInsert (idx : Nat) (a : A) (l : List A) : List A :=
  l.take idx ++ a :: l.drop idx

/-- Expressions occurring in the module: literals, list displays
(whose elements in this module are all literals, so they are carried
as values), name references, and the call `os.path.abspath(e)`. -/
inductive Expr where
  | lit (v : Value)
  | name (x : String)
  | listLit (elems : List Value)
  | osPathAbspath (arg : Expr)

/-- Statements occurring in the module: `import m`, an assignment
`x = e`, and the call `sys.path.insert(idx, e)`. -/
inductive Stmt where
  | importMod (m : String)
  | assign (x : String) (e : Expr)
  | sysPathInsert (idx : Nat) (arg : Expr)

/-- Evaluate an expression; name lookups and attribute accesses on
unimported modules raise (returned as `Except.error`). -/
def evalExpr (cwd : String) (env : Env) : Expr → Except String Value
  | .lit v => Except.ok v
  | .name x =>
      match lookupEnv env x with
      | some v => Except.ok v
      | none => Except.error ("NameError: name " ++ x ++ " is not defined")
  | .listLit es => Except.ok (Value.list es)
  | .osPathAbspath a =>
      match lookupEnv env "os" with
      | some (Value.module "os") =>
          match evalExpr cwd env a with
          | Except.ok (Value.str s) => Except.ok (Value.str (os_path_abspath cwd s))
          | Except.ok _ => Except.error "TypeError: abspath expects a str"
          | Except.error msg => Except.error msg
      | _ => Except.error "NameError: name os is not defined"

/-- Execute one statement: imports bind a module object, assignments
bind the evaluated value, and `sys.path.insert` mutates the
interpreter-global `sys.path` (raising if `sys` is not bound). -/
def evalStmt (st : PyState A) (env : Env) : Stmt → Except String (PyState A × Env)
  | .importMod m => Except.ok (st, envSet env m (Value.module m))
  | .assign x e =>
      match evalExpr st.cwd env e with
      | Except.ok v => Except.ok (st, envSet env x v)
      | Except.error msg => Except.error msg
  | .sysPathInsert idx a =>
      match lookupEnv env "sys" with
      | some (Value.module "sys") =>
          match evalExpr st.cwd env a with
          | Except.ok (Value.str p) =>
              Except.ok ({ st with sysPath := pyListInsert idx p st.sysPath }, env)
          | Except.ok _ => Except.error "TypeError: sys.path.insert expects a str"
          | Except.error msg => Except.error msg
      | _ => Except.error "NameError: name sys is not defined"

/-- Execute a statement list in order, stopping at the first error. -/
def runStmts (st : PyState A) (env : Env) : List Stmt → Except String (PyState A × Env)
  | [] => Except.ok (st, env)
  | s :: rest =>
      match evalStmt st env s with
      | Except.ok (st2, env2) => runStmts st2 env2 rest
      | Except.error msg => Except.error msg

/-- The statements of `doc/conf.py`, in source order. -/
def conf_py : List Stmt :=
  [ Stmt.importMod "sys",
    Stmt.importMod "os",
    Stmt.sysPathInsert 0 (Expr.osPathAbspath (Expr.lit (Value.str ""))),
    Stmt.assign "master_doc" (Expr.lit (Value.str "doc/tntcxx_getting_started")),
    Stmt.assign "source_suffix" (Expr.lit (Value.str ".rst")),
    Stmt.assign "project" (Expr.lit (Value.str "tntcxx")),
    Stmt.assign "exclude_patterns" (Expr.listLit
      [ Value.str "doc/locale",
        Value.str "doc/output",
        Value.str "doc/README.md",
        Value.str "doc/cleanup.py",
        Value.str "doc/requirements.txt" ]),
    Stmt.assign "language" (Expr.lit (Value.str "en")),
    Stmt.assign "locale_dirs" (Expr.listLit [Value.str "./doc/locale"]),
    Stmt.assign "gettext_compact" (Expr.lit (Value.bool false)),
    Stmt.assign "gettext_location" (Expr.lit (Value.bool true)) ]

/-- Evaluate the whole module from an initial interpreter state and an
empty module namespace. -/
def evalConfModule (st : PyState A) : Except String (PyState A × Env) :=
  runStmts st [] conf_py

/-- The module namespace produced by evaluating `doc/conf.py`. -/
def confEnv : Env :=
  [ ("sys", Value.module "sys"),
    ("os", Value.module "os"),
    ("master_doc", Value.str "doc/tntcxx_getting_started"),
    ("source_suffix", Value.str ".rst"),
    ("project", Value.str "tntcxx"),
    ("exclude_patterns", Value.list
      [ Value.str "doc/locale",
        Value.str "doc/output",
        Value.str "doc/README.md",
        Value.str "doc/cleanup.py",
        Value.str "doc/requirements.txt" ]),
    ("language", Value.str "en"),
    ("locale_dirs", Value.list [Value.str "./doc/locale"]),
    ("gettext_compact", Value.bool false),
    ("gettext_location", Value.bool true) ]

/-- Master evaluation lemma: from any initial interpreter state the
module evaluates without error, its only effect on interpreter state
is prepending `abspath('')` (the cwd) to `sys.path`, and the resulting
namespace is `confEnv`. -/
theorem evalConf_spec (A : Type) (st : PyState A) :
    evalConfModule st =
      Except.ok ({ st with sysPath := st.cwd :: st.sysPath }, confEnv) := rfl

/-- The option names recognized by the documentation tool, per the
configuration contract, in the order the module binds them. -/
def recognizedOptions : List String :=
  [ "master_doc", "source_suffix", "project", "exclude_patterns",
    "language", "locale_dirs", "gettext_compact", "gettext_location" ]

/-- Scalar values: strings, booleans and integers. -/
def isScalar : Value → Bool
  | .str _ => true
  | .bool _ => true
  | .int _ => true
  | _ => false

/-- List values. -/
def isListVal : Value → Bool
  | .list _ => true
  | _ => false

/-- Imported module objects. -/
def isModuleVal : Value → Bool
  | .module _ => true
  | _ => false

/-- Boolean values. -/
def isBoolVal : Value → Bool
  | .bool _ => true
  | _ => false

/-- String values. -/
def isStrVal : Value → Bool
  | .str _ => true
  | _ => false

/-- The names bound in a namespace, in binding order. -/
def boundNames (env : Env) : List String := env.map Prod.fst

/-- The bindings of a namespace whose names are recognized options. -/
def optionBindings (env : Env) : Env :=
  env.filter (fun p => recognizedOptions.contains p.1)

/-- The configuration contract of the documentation tool: every
recognized option name is bound exactly once, each to a scalar or a
list, and every other binding is merely an imported module object
(not a further option). -/
def envMeetsContract (env : Env) : Bool :=
  (boundNames (optionBindings env) == recognizedOptions)
    && (optionBindings env).all (fun p => isScalar p.2 || isListVal p.2)
    && env.all (fun p => recognizedOptions.contains p.1 || isModuleVal p.2)

/-- The names bound to boolean values, in binding order. -/
def booleanFlagNames (env : Env) : List String :=
  boundNames (env.filter (fun p => isBoolVal p.2))

/-- Whether a computation finished without raising. -/
def exceptIsOk : Except E B → Bool
  | Except.ok _ => true
  | Except.error _ => false

/-- The shape of a configuration value as the specification describes
them: a scalar string, a scalar boolean, a list of strings, or
anything else. -/
inductive Shape where
  | scalarString
  | scalarBool
  | listOfStrings
  | otherShape
deriving DecidableEq

/-- Classify a value by shape. -/
def shapeOf : Value → Shape
  | .str _ => Shape.scalarString
  | .bool _ => Shape.scalarBool
  | .list es => if es.all isStrVal then Shape.listOfStrings else Shape.otherShape
  | _ => Shape.otherShape

/-- Syntactic classification of a source line of the configuration
file.  The last three kinds do not occur in the file; they keep the
classification non-vacuous. -/
inductive LineKind where
  | blankLine
  | importLine
  | interpStateLine
  | configAssignLine
  | configAssignOpen
  | configAssignItem
  | configAssignClose
  | defLine
  | classLine
  | controlFlowLine
deriving DecidableEq

/-- The 23 source lines of doc/conf.py classified in order: two import
lines, a blank, the sys.path.insert call, then blank-separated
configuration assignments, with the exclude_patterns list display
spanning lines 12 to 18. -/
def conf_py_line_kinds : List LineKind :=
  [ LineKind.importLine,       -- line 1: import sys
    LineKind.importLine,       -- line 2: import os
    LineKind.blankLine,        -- line 3
    LineKind.interpStateLine,  -- line 4: the sys.path.insert call
    LineKind.blankLine,        -- line 5
    LineKind.configAssignLine, -- line 6: master_doc
    LineKind.blankLine,        -- line 7
    LineKind.configAssignLine, -- line 8: source_suffix
    LineKind.blankLine,        -- line 9
    LineKind.configAssignLine, -- line 10: project
    LineKind.blankLine,        -- line 11
    LineKind.configAssignOpen, -- line 12: exclude_patterns = [
    LineKind.configAssignItem, -- line 13
    LineKind.configAssignItem, -- line 14
    LineKind.configAssignItem, -- line 15
    LineKind.configAssignItem, -- line 16
    LineKind.configAssignItem, -- line 17
    LineKind.configAssignClose, -- line 18: ]
    LineKind.blankLine,        -- line 19
    LineKind.configAssignLine, -- line 20: language
    LineKind.configAssignLine, -- line 21: locale_dirs
    LineKind.configAssignLine, -- line 22: gettext_compact
    LineKind.configAssignLine ] -- line 23: gettext_location

/-- A line that is a static configuration value, a blank line, or
part of one. -/
def isStaticConfigLine : LineKind → Bool
  | LineKind.blankLine => true
  | LineKind.configAssignLine => true
  | LineKind.configAssignOpen => true
  | LineKind.configAssignItem => true
  | LineKind.configAssignClose => true
  | _ => false

/-- A static configuration line, an import line, or the interpreter
path-setup line. -/
def isConfigOrSetupLine : LineKind → Bool
  | LineKind.importLine => true
  | LineKind.interpStateLine => true
  | k => isStaticConfigLine k

/-- Drop a leading ./ from a relative path. -/
def stripDotSlash (s : String) : String :=
  if strStartsWith s "./" then String.mk (s.data.drop 2) else s

/-- Membership of a string among the string elements of a value list. -/
def containsStr (vs : List Value) (s : String) : Bool :=
  vs.any (fun v => match v with
    | Value.str t => t == s
    | _ => false)

/-- Every entry of locale_dirs, stripped of a leading ./, occurs in
exclude_patterns. -/
def localeDirsExcluded (env : Env) : Bool :=
  match lookupEnv env "locale_dirs", lookupEnv env "exclude_patterns" with
  | some (Value.list ds), some (Value.list ex) =>
      ds.all (fun d => match d with
        | Value.str s => containsStr ex (stripDotSlash s)
        | _ => false)
  | _, _ => false

/-- View a value list as a string list, when every element is a
string. -/
def asStrings : List Value → Option (List String)
  | [] => some []
  | Value.str s :: vs =>
      match asStrings vs with
      | some ss => some (s :: ss)
      | none => none
  | _ :: _ => none

/-- Pairwise distinctness of a string list. -/
def distinctStrings : List String → Bool
  | [] => true
  | s :: ss => !(ss.contains s) && distinctStrings ss

/-- exclude_patterns is a list of exactly five pairwise-distinct
non-empty strings, each beginning with doc/. -/
def excludePatternsWellFormed (env : Env) : Bool :=
  match lookupEnv env "exclude_patterns" with
  | some (Value.list vs) =>
      match asStrings vs with
      | some ss =>
          (ss.length == 5) && distinctStrings ss
            && ss.all (fun s => !(s == "") && strStartsWith s "doc/")
      | none => false
  | _ => false

/-- A concrete initial interpreter state: empty sys.path, working
directory /repo, trivial remaining global state. -/
def sampleState : PyState Unit :=
  { sysPath := [], cwd := "/repo", other := () }

/-- The sys.path left behind by evaluating the module, when evaluation
succeeds. -/
def finalSysPath (st : PyState A) : Option (List String) :=
  match evalConfModule st with
  | Except.ok (st2, _) => some st2.sysPath
  | Except.error _ => none

/-- Claim C1, counterexample: evaluating the module from the concrete
interpreter state with empty sys.path and working directory /repo does
change interpreter-global state beyond the module bindings: the final
sys.path differs from the initial one (the working directory has been
prepended by the sys.path.insert call on line 4). -/
theorem C1_counterexample :
    finalSysPath sampleState ≠ some sampleState.sysPath := by
  decide

/-- Claim C1, amended: evaluating the configuration module leaves all
interpreter-global state unchanged except sys.path, whose sole change
is that the absolute path of the current working directory is
prepended to it. -/
theorem C1_global_state_frame (A : Type) (st : PyState A) :
    (evalConfModule st).map (fun r => (r.1.other, r.1.cwd, r.1.sysPath)) =
      Except.ok (st.other, st.cwd, os_path_abspath st.cwd "" :: st.sysPath) := by
  rw [evalConf_spec A st]
  rfl

/-- Claim C2: after evaluation, the recognized option names bound by
the module are exactly the eight of the contract, each bound once to a
scalar or a list value, and every other binding is only an imported
module object. -/
theorem C2_option_contract (A : Type) (st : PyState A) :
    (evalConfModule st).map (fun r => envMeetsContract r.2) = Except.ok true := by
  rw [evalConf_spec A st]
  rfl

/-- Claim C3: the names bound to boolean values are exactly
gettext_compact and gettext_location, with gettext_compact bound to
False and gettext_location bound to True. -/
theorem C3_gettext_flags (A : Type) (st : PyState A) :
    (evalConfModule st).map
        (fun r => (lookupEnv r.2 "gettext_compact",
                   lookupEnv r.2 "gettext_location",
                   booleanFlagNames r.2)) =
      Except.ok (some (Value.bool false), some (Value.bool true),
        ["gettext_compact", "gettext_location"]) := by
  rw [evalConf_spec A st]
  rfl

/-- Claim C4: master_doc is bound to the master document path string
doc/tntcxx_getting_started. -/
theorem C4_master_doc (A : Type) (st : PyState A) :
    (evalConfModule st).map (fun r => lookupEnv r.2 "master_doc") =
      Except.ok (some (Value.str "doc/tntcxx_getting_started")) := by
  rw [evalConf_spec A st]
  rfl

/-- Claim C5: evaluating the configuration module never raises: from
every initial interpreter state, evaluation finishes without error. -/
theorem C5_no_error (A : Type) (st : PyState A) :
    exceptIsOk (evalConfModule st) = true := by
  rw [evalConf_spec A st]
  rfl

/-- Claim C6: the configuration values bound by the module, in
binding order, have exactly the shapes scalar string (master_doc,
source_suffix, project, language), list of strings (exclude_patterns,
locale_dirs) and scalar boolean (gettext_compact, gettext_location);
no other shape occurs. -/
theorem C6_value_shapes (A : Type) (st : PyState A) :
    (evalConfModule st).map
        (fun r => (optionBindings r.2).map (fun p => shapeOf p.2)) =
      Except.ok
        [ Shape.scalarString, Shape.scalarString, Shape.scalarString,
          Shape.listOfStrings, Shape.scalarString, Shape.listOfStrings,
          Shape.scalarBool, Shape.scalarBool ] := by
  rw [evalConf_spec A st]
  rfl

/-- Claim C7, counterexample: not every line of the file is a static
configuration value, a blank line, or part of one — lines 1, 2 and 4
are import statements and an interpreter path-setup call. -/
theorem C7_counterexample :
    conf_py_line_kinds.all isStaticConfigLine = false := by
  rfl

/-- Claim C7, amended: the file is exactly 23 lines, and every line is
a static configuration value, a blank line, part of one, an import
line, or the interpreter path-setup line. -/
theorem C7_lines :
    conf_py_line_kinds.length = 23 ∧
      conf_py_line_kinds.all isConfigOrSetupLine = true :=
  ⟨rfl, rfl⟩

/-- Claim C8: every entry of locale_dirs, with a leading ./ removed,
is an element of exclude_patterns. -/
theorem C8_locale_dirs_excluded (A : Type) (st : PyState A) :
    (evalConfModule st).map (fun r => localeDirsExcluded r.2) = Except.ok true := by
  rw [evalConf_spec A st]
  rfl

/-- Claim C9: the eight option values are deterministic constants:
any two evaluations of the module, from any two interpreter states
(any working directory, any sys.path, any other global state), yield
identical option bindings. -/
theorem C9_deterministic (A B : Type) (st1 : PyState A) (st2 : PyState B) :
    (evalConfModule st1).map (fun r => optionBindings r.2) =
      (evalConfModule st2).map (fun r => optionBindings r.2) := by
  rw [evalConf_spec A st1, evalConf_spec B st2]
  rfl

/-- Claim C10: exclude_patterns is a list of exactly five
pairwise-distinct non-empty strings, each beginning with doc/. -/
theorem C10_exclude_patterns_wf (A : Type) (st : PyState A) :
    (evalConfModule st).map (fun r => excludePatternsWellFormed r.2) =
      Except.ok true := by
  rw [evalConf_spec A st]
  rfl

end TntcxxConf
